import Mathlib

/-!
Verification of the LunarCrush MCP trading-terminal repository.

The definitions below are a shallow embedding of the TypeScript sources:

* `src/app/services/lunarcrush-mcp.ts` — the MCP client (request
  correlator `handleResponse`, the `makeRequest` timeout callback, the
  `messageEndpoint` guard, and `getCryptocurrencyData`'s markdown
  parsing with its random demo-data fill);
* `src/app/routes/_index.tsx` — `transformChartData`,
  `executeGeminiToolChoices` and `parseAnalysisResponse`;
* `src/app/routes/api.analyze.tsx` — the `action` request handler.

JavaScript `undefined`/`null` is modelled with `Option`; JS exceptions
with `Except`; JS numbers with `ℚ`; external effects (`Math.random`,
`Date.now`, `JSON.parse` of arbitrary text, `new Date(s).getTime()`)
are passed in as explicit function arguments.
-/

/-- Parsed JSON values, as produced by `JSON.parse`. -/
inductive JsonV where
  | null
  | bool (b : Bool)
  | num (q : ℚ)
  | str (s : String)
  | arr (elems : List JsonV)
  | obj (fields : List (String × JsonV))

/-- JavaScript truthiness for a defined value: `null`, `false`, `0` and
the empty string are falsy; arrays and objects are always truthy. -/
def JsonV.falsy : JsonV → Bool
  | .null => true
  | .bool b => !b
  | .num q => q == 0
  | .str s => s == ""
  | .arr _ => false
  | .obj _ => false

/-- JS `a || b` where `a` is a possibly-undefined string. -/
def jsOrStr (a : Option String) (b : String) : String :=
  match a with
  | some s => if s = "" then b else s
  | none => b

/-- JS `a || b` where `a` is a possibly-undefined number. -/
def jsOrNum (a : Option ℚ) (b : ℚ) : ℚ :=
  match a with
  | some q => if q = 0 then b else q
  | none => b

/-- JS `a || b` where `a` is a possibly-undefined JSON value. -/
def jsOrJson (a : Option JsonV) (b : JsonV) : JsonV :=
  match a with
  | some v => if v.falsy then b else v
  | none => b

/-- A JSON-RPC response frame read off the SSE stream: the fields of the
parsed `jsonData` object that `handleResponse` inspects
(`lunarcrush-mcp.ts`, lines 141-152). A missing/falsy `id` is modelled
as `""`. -/
structure Frame where
  id : String
  result : Option JsonV
  error : Option JsonV

/-- The whole frame as a JSON object (`jsonData` itself), used when
`handleResponse` resolves with `jsonData.result || jsonData`. -/
def Frame.toJson (f : Frame) : JsonV :=
  .obj ([("id", JsonV.str f.id)]
    ++ (match f.result with | some r => [("result", r)] | none => [])
    ++ (match f.error with | some e => [("error", e)] | none => []))

/-- The value passed to `resolve`: `jsonData.result || jsonData`. -/
def Frame.resolvedValue (f : Frame) : JsonV :=
  match f.result with
  | some r => if r.falsy then f.toJson else r
  | none => f.toJson

/-- How a pending request's promise is completed. JS `Error` objects are
modelled as tagged values carrying what the source interpolates into the
message. -/
inductive Completion where
  /-- `resolve(jsonData.result || jsonData)` -/
  | resolved (v : JsonV)
  /-- `reject(new Error("MCP Error: " + JSON.stringify(jsonData.error)))` -/
  | rejectedMCPError (e : JsonV)
  /-- `reject(new Error("Request timeout: " + method))` -/
  | rejectedTimeout (method : String)

/-- The correlator's shared mutable state: the keys of the
`pendingRequests` `Map` (`Map` keys are unique, so deleting a key is
filtering it out). -/
structure CorrelatorState where
  pending : List String
deriving DecidableEq

/-- `handleResponse` (`lunarcrush-mcp.ts`, lines 141-152): if the frame
has a truthy id and the id is pending, delete the entry and complete its
promise — reject when `jsonData.error` is truthy, else resolve with
`jsonData.result || jsonData`. Returns the new state and the completion
performed, if any. -/
def handleResponse (st : CorrelatorState) (f : Frame) :
    CorrelatorState × Option (String × Completion) :=
  if f.id ≠ "" ∧ f.id ∈ st.pending then
    ({ pending := st.pending.filter (fun k => k != f.id) },
     some (f.id,
       match f.error with
       | some e => if e.falsy then .resolved f.resolvedValue else .rejectedMCPError e
       | none => .resolved f.resolvedValue))
  else (st, none)

/-- The body of the `setTimeout(..., 15000)` callback registered by
`makeRequest` (`lunarcrush-mcp.ts`, lines 210-215) for request
`requestId` of `method`: if the id is still pending, delete it and
reject with the timeout error; otherwise do nothing. -/
def onTimeout (st : CorrelatorState) (requestId method : String) :
    CorrelatorState × Option (String × Completion) :=
  if requestId ∈ st.pending then
    ({ pending := st.pending.filter (fun k => k != requestId) },
     some (requestId, .rejectedTimeout method))
  else (st, none)

/-- The outbound JSON-RPC POST that `makeRequest` sends to the message
endpoint. -/
structure SentRequest where
  path : String
  id : String
  method : String
  params : Option JsonV

/-- The service instance fields that `makeRequest` reads and writes
before transmitting. -/
structure ServiceState where
  messageEndpoint : Option String
  correlator : CorrelatorState

/-- The synchronous prelude of `makeRequest` (`lunarcrush-mcp.ts`,
lines 158-207): throw if `this.messageEndpoint` is falsy, otherwise
register the pending entry and emit the POST. `requestId` stands for
the `generateId()` call. -/
def makeRequest (st : ServiceState) (method : String) (params : Option JsonV)
    (requestId : String) : Except String (ServiceState × SentRequest) :=
  if st.messageEndpoint.getD "" = "" then
    .error "MCP not initialized. Call initializeConnection() first."
  else
    .ok ({ st with correlator := { pending := st.correlator.pending ++ [requestId] } },
         { path := st.messageEndpoint.getD "", id := requestId,
           method := method, params := params })

/-- `listTools` / `listAvailableTools`: `makeRequest("tools/list")`. -/
def listTools (st : ServiceState) (requestId : String) :
    Except String (ServiceState × SentRequest) :=
  makeRequest st "tools/list" none requestId

/-- `callTool(toolName, args)`: `makeRequest("tools/call",
\x7bname, arguments\x7d)`; errors propagate to the caller. -/
def callToolReq (st : ServiceState) (toolName : String) (args : JsonV)
    (requestId : String) : Except String (ServiceState × SentRequest) :=
  makeRequest st "tools/call"
    (some (.obj [("name", .str toolName), ("arguments", args)])) requestId

/-- Helper: a frame whose id is not pending leaves the state untouched
and completes nothing. -/
theorem handleResponse_of_not_pending (st : CorrelatorState) (f : Frame)
    (h : f.id ∉ st.pending) : handleResponse st f = (st, none) := by
  unfold handleResponse
  rw [if_neg (fun hc => h hc.2)]

/-- Helper: the timer callback for an id that is no longer pending does
nothing. -/
theorem onTimeout_of_not_pending (st : CorrelatorState) (requestId method : String)
    (h : requestId ∉ st.pending) : onTimeout st requestId method = (st, none) := by
  unfold onTimeout
  rw [if_neg h]

/-- C1: For every well-formed response frame whose id matches a pending
request, `handleResponse` resolves exactly that request with the frame's
`result` (or rejects it with an error wrapping the frame's `error`
field) and removes it from the pending-request map, so a given request
can never be resolved twice. -/
theorem handleResponse_resolves_pending_once
    (st : CorrelatorState) (f : Frame)
    (hid : f.id ≠ "") (hmem : f.id ∈ st.pending) :
    (handleResponse st f).1.pending = st.pending.filter (fun k => k != f.id)
    ∧ f.id ∉ (handleResponse st f).1.pending
    ∧ (∀ r, f.error = none → f.result = some r → r.falsy = false →
        (handleResponse st f).2 = some (f.id, Completion.resolved r))
    ∧ (∀ e, f.error = some e → e.falsy = false →
        (handleResponse st f).2 = some (f.id, Completion.rejectedMCPError e))
    ∧ handleResponse (handleResponse st f).1 f = ((handleResponse st f).1, none) := by
  have hguard : f.id ≠ "" ∧ f.id ∈ st.pending := ⟨hid, hmem⟩
  refine ⟨?_, ?_, ?_, ?_, ?_⟩
  · simp [handleResponse, hguard]
  · simp [handleResponse, hguard, List.mem_filter]
  · intro r herr hres hfal
    simp [handleResponse, hguard, herr, Frame.resolvedValue, hres, hfal]
  · intro e herr hfal
    simp [handleResponse, hguard, herr, hfal]
  · have hnot : f.id ∉ (handleResponse st f).1.pending := by
      simp [handleResponse, hguard, List.mem_filter]
    exact handleResponse_of_not_pending _ f hnot

/-- Witness for C1 at a concrete pending request and frame. -/
theorem handleResponse_resolves_pending_once_witness :
    (handleResponse ⟨["req-1", "req-2"]⟩ ⟨"req-1", some (.str "ok"), none⟩).1.pending
        = ["req-1", "req-2"].filter (fun k => k != "req-1")
    ∧ "req-1" ∉ (handleResponse ⟨["req-1", "req-2"]⟩ ⟨"req-1", some (.str "ok"), none⟩).1.pending
    ∧ (∀ r, (Frame.mk "req-1" (some (.str "ok")) none).error = none →
        (Frame.mk "req-1" (some (.str "ok")) none).result = some r → r.falsy = false →
        (handleResponse ⟨["req-1", "req-2"]⟩ ⟨"req-1", some (.str "ok"), none⟩).2
          = some ("req-1", Completion.resolved r))
    ∧ (∀ e, (Frame.mk "req-1" (some (.str "ok")) none).error = some e → e.falsy = false →
        (handleResponse ⟨["req-1", "req-2"]⟩ ⟨"req-1", some (.str "ok"), none⟩).2
          = some ("req-1", Completion.rejectedMCPError e))
    ∧ handleResponse (handleResponse ⟨["req-1", "req-2"]⟩ ⟨"req-1", some (.str "ok"), none⟩).1
          ⟨"req-1", some (.str "ok"), none⟩
        = ((handleResponse ⟨["req-1", "req-2"]⟩ ⟨"req-1", some (.str "ok"), none⟩).1, none) :=
  handleResponse_resolves_pending_once ⟨["req-1", "req-2"]⟩
    ⟨"req-1", some (.str "ok"), none⟩ (by decide) (by decide)

/-- C2: when the 15-second timeout fires for a still-pending request,
the timer callback rejects it with the timeout error and removes the
pending entry; a frame for that id arriving afterwards is a no-op, and
conversely once a frame completed the request the timer callback is a
no-op — exactly one of the two paths completes a given request. -/
theorem timeout_rejects_and_late_frame_noop
    (st : CorrelatorState) (requestId method : String)
    (hmem : requestId ∈ st.pending) :
    (onTimeout st requestId method).1.pending
        = st.pending.filter (fun k => k != requestId)
    ∧ requestId ∉ (onTimeout st requestId method).1.pending
    ∧ (onTimeout st requestId method).2 = some (requestId, Completion.rejectedTimeout method)
    ∧ (∀ f : Frame, f.id = requestId →
        handleResponse (onTimeout st requestId method).1 f
          = ((onTimeout st requestId method).1, none))
    ∧ (∀ f : Frame, f.id = requestId → requestId ≠ "" →
        onTimeout (handleResponse st f).1 requestId method
          = ((handleResponse st f).1, none)) := by
  refine ⟨?_, ?_, ?_, ?_, ?_⟩
  · simp [onTimeout, hmem]
  · simp [onTimeout, hmem, List.mem_filter]
  · simp [onTimeout, hmem]
  · intro f hf
    have hnot : f.id ∉ (onTimeout st requestId method).1.pending := by
      simp [onTimeout, hmem, List.mem_filter, hf]
    exact handleResponse_of_not_pending _ f hnot
  · intro f hf hne
    have hnot : requestId ∉ (handleResponse st f).1.pending := by
      simp [handleResponse, hf, hne, hmem, List.mem_filter]
    exact onTimeout_of_not_pending _ requestId method hnot

/-- Witness for C2 at a concrete pending request. -/
theorem timeout_rejects_and_late_frame_noop_witness :
    (onTimeout ⟨["req-7"]⟩ "req-7" "tools/list").1.pending
        = ["req-7"].filter (fun k => k != "req-7")
    ∧ "req-7" ∉ (onTimeout ⟨["req-7"]⟩ "req-7" "tools/list").1.pending
    ∧ (onTimeout ⟨["req-7"]⟩ "req-7" "tools/list").2
        = some ("req-7", Completion.rejectedTimeout "tools/list")
    ∧ (∀ f : Frame, f.id = "req-7" →
        handleResponse (onTimeout ⟨["req-7"]⟩ "req-7" "tools/list").1 f
          = ((onTimeout ⟨["req-7"]⟩ "req-7" "tools/list").1, none))
    ∧ (∀ f : Frame, f.id = "req-7" → "req-7" ≠ "" →
        onTimeout (handleResponse ⟨["req-7"]⟩ f).1 "req-7" "tools/list"
          = ((handleResponse ⟨["req-7"]⟩ f).1, none)) :=
  timeout_rejects_and_late_frame_noop ⟨["req-7"]⟩ "req-7" "tools/list" (by decide)

/-- C8: no tool call can be issued before the message endpoint is known:
while `messageEndpoint` is still null, `makeRequest` (and hence
`listTools` and `callTool`) fails with the initialization error and
sends nothing — no request is emitted and no pending entry is created. -/
theorem makeRequest_requires_endpoint
    (st : ServiceState) (method : String) (params : Option JsonV)
    (requestId : String) (h : st.messageEndpoint = none) :
    makeRequest st method params requestId
        = .error "MCP not initialized. Call initializeConnection() first."
    ∧ listTools st requestId
        = .error "MCP not initialized. Call initializeConnection() first."
    ∧ (∀ toolName args, callToolReq st toolName args requestId
        = .error "MCP not initialized. Call initializeConnection() first.")
    ∧ (∀ st' sent, makeRequest st method params requestId ≠ .ok (st', sent)) := by
  refine ⟨?_, ?_, ?_, ?_⟩
  · simp [makeRequest, h]
  · simp [listTools, makeRequest, h]
  · intro toolName args
    simp [callToolReq, makeRequest, h]
  · intro st' sent
    simp [makeRequest, h]

/-- Witness for C8 at a concrete uninitialized service state. -/
theorem makeRequest_requires_endpoint_witness :
    makeRequest ⟨none, ⟨[]⟩⟩ "tools/list" none "req-9"
        = .error "MCP not initialized. Call initializeConnection() first."
    ∧ listTools ⟨none, ⟨[]⟩⟩ "req-9"
        = .error "MCP not initialized. Call initializeConnection() first."
    ∧ (∀ toolName args, callToolReq ⟨none, ⟨[]⟩⟩ toolName args "req-9"
        = .error "MCP not initialized. Call initializeConnection() first.")
    ∧ (∀ st' sent, makeRequest ⟨none, ⟨[]⟩⟩ "tools/list" none "req-9" ≠ .ok (st', sent)) :=
  makeRequest_requires_endpoint ⟨none, ⟨[]⟩⟩ "tools/list" none "req-9" rfl

/-- One raw element of the model's `chart_data` array, carrying the
optional fields `transformChartData` reads. -/
structure ChartItemIn where
  time : Option String
  date : Option String
  close : Option ℚ
  price : Option ℚ

/-- A normalized chart point. -/
structure ChartPoint where
  date : String
  price : ℚ
deriving DecidableEq

/-- The `.map` step of `transformChartData` (`_index.tsx`, lines 59-62):
`date: item.time || item.date || ''` and
`price: item.close || item.price || 0`. -/
def toPoint (item : ChartItemIn) : ChartPoint :=
  { date := jsOrStr item.time (jsOrStr item.date "")
    price := jsOrNum item.close (jsOrNum item.price 0) }

/-- The `.filter` predicate (`_index.tsx`, line 63):
`item.date && item.price > 0`. -/
def validPoint (p : ChartPoint) : Bool :=
  (p.date != "") && decide (0 < p.price)

/-- The `.sort` comparator (`_index.tsx`, line 64): ascending by parsed
timestamp. `toTime` stands for the external `new Date(s).getTime()`. -/
def chartLE (toTime : String → Int) (a b : ChartPoint) : Bool :=
  decide (toTime a.date ≤ toTime b.date)

/-- `transformChartData` (`_index.tsx`, lines 45-67): a non-array or
empty input yields `[]`; otherwise map each item to `(date, price)`,
drop invalid points, and sort ascending by parsed date (JS
`Array.prototype.sort` is stable, hence `mergeSort`). -/
def transformChartData (toTime : String → Int) (chartData : List ChartItemIn) :
    List ChartPoint :=
  if chartData.isEmpty then []
  else ((chartData.map toPoint).filter validPoint).mergeSort (chartLE toTime)

/-- Helper: the empty-input guard is redundant, so `transformChartData`
is map-filter-sort on every input. -/
theorem transformChartData_eq (toTime : String → Int) (chartData : List ChartItemIn) :
    transformChartData toTime chartData
      = ((chartData.map toPoint).filter validPoint).mergeSort (chartLE toTime) := by
  unfold transformChartData
  by_cases h : chartData.isEmpty
  · rw [if_pos h, List.isEmpty_iff.mp h]
    simp
  · rw [if_neg h]

/-- Helper: the output length is the number of valid points. -/
theorem transformChartData_length (toTime : String → Int) (chartData : List ChartItemIn) :
    (transformChartData toTime chartData).length
      = ((chartData.map toPoint).filter validPoint).length := by
  rw [transformChartData_eq]
  exact List.length_mergeSort _

/-- A concrete parsed-timestamp function for witnesses: a base-256 value
of the characters. On equal-length ISO `YYYY-MM-DD` dates this is
monotone in the date, just as `new Date(s).getTime()` is. -/
def exToTime : String → Int :=
  fun s => ((s.toList.foldl (fun a c => a * 256 + c.toNat) 0 : Nat) : Int)

/-- The date string `2025-06-<i+1>`. -/
def exDate (i : Nat) : String :=
  "2025-06-" ++ (if i + 1 < 10 then "0" else "") ++ toString (i + 1)

/-- Twenty-one valid chart items on consecutive June 2025 days. -/
def ex21 : List ChartItemIn :=
  (List.range 21).map (fun i =>
    { time := none, date := some (exDate i), close := none, price := some 1 })

/-- C5 counterexample: on 21 valid points `transformChartData` returns
all 21 of them — no decimation toward 20 points happens (the claimed
bound `ceil(N / ceil(N/20))` would be 11 here). -/
theorem transformChartData_no_decimation_counterexample :
    (transformChartData exToTime ex21).length = 21
    ∧ ¬ (transformChartData exToTime ex21).length ≤ 20
    ∧ (transformChartData exToTime ex21).length ≠ 11 := by
  have h := transformChartData_length exToTime ex21
  refine ⟨?_, ?_, ?_⟩ <;> rw [h] <;> decide

/-- C5 amended: `transformChartData` never decimates: its output is
exactly the valid points (non-empty date, strictly positive price) of
the input, reordered ascending by parsed timestamp; in particular for
N > 20 valid points the output still has N points. -/
theorem transformChartData_keeps_all_valid_points (toTime : String → Int)
    (chartData : List ChartItemIn) :
    (transformChartData toTime chartData).length
        = ((chartData.map toPoint).filter validPoint).length
    ∧ (transformChartData toTime chartData).Perm
        ((chartData.map toPoint).filter validPoint)
    ∧ (transformChartData toTime chartData).Pairwise
        (fun a b => toTime a.date ≤ toTime b.date) := by
  refine ⟨transformChartData_length toTime chartData, ?_, ?_⟩
  · rw [transformChartData_eq]
    exact List.mergeSort_perm _ _
  · rw [transformChartData_eq]
    have htrans : ∀ a b c : ChartPoint, chartLE toTime a b → chartLE toTime b c →
        chartLE toTime a c := by
      intro a b c hab hbc
      simp only [chartLE, decide_eq_true_eq] at *
      exact le_trans hab hbc
    have htotal : ∀ a b : ChartPoint, chartLE toTime a b || chartLE toTime b a := by
      intro a b
      simp only [chartLE, Bool.or_eq_true, decide_eq_true_eq]
      exact le_total _ _
    have hs := List.sorted_mergeSort htrans htotal
      ((chartData.map toPoint).filter validPoint)
    exact hs.imp (fun h => by simpa [chartLE] using h)

/-- An already-normalized chart point fed back in as a raw item: it has
a `date` and a `price` field but no `time` or `close`. -/
def pointToItem (p : ChartPoint) : ChartItemIn :=
  { time := none, date := some p.date, close := none, price := some p.price }

/-- Helper: mapping back and forth is the identity on valid points. -/
theorem toPoint_pointToItem (p : ChartPoint) (hd : p.date ≠ "") (hp : 0 < p.price) :
    toPoint (pointToItem p) = p := by
  cases p with
  | mk d q =>
    simp only [toPoint, pointToItem, jsOrStr, jsOrNum]
    simp only at hd hp
    rw [if_neg hd, if_neg hp.ne']

/-- C9: chart-data normalization is idempotent: on input that is already
normalized (non-empty date tokens, strictly positive prices, strictly
ascending by parsed timestamp, at most 20 points), `transformChartData`
returns the same sequence unchanged. -/
theorem transformChartData_idempotent (toTime : String → Int)
    (points : List ChartPoint)
    (hvalid : ∀ p ∈ points, p.date ≠ "" ∧ 0 < p.price)
    (hsorted : points.Pairwise (fun a b => toTime a.date < toTime b.date))
    (_hlen : points.length ≤ 20) :
    transformChartData toTime (points.map pointToItem) = points := by
  rw [transformChartData_eq]
  have hmap : (points.map pointToItem).map toPoint = points := by
    rw [List.map_map]
    have : ∀ p ∈ points, (toPoint ∘ pointToItem) p = id p := by
      intro p hp
      exact toPoint_pointToItem p (hvalid p hp).1 (hvalid p hp).2
    rw [List.map_congr_left this, List.map_id]
  rw [hmap]
  have hfilter : points.filter validPoint = points := by
    rw [List.filter_eq_self]
    intro p hp
    simp only [validPoint, Bool.and_eq_true, bne_iff_ne, ne_eq, decide_eq_true_eq]
    exact ⟨(hvalid p hp).1, (hvalid p hp).2⟩
  rw [hfilter]
  exact List.mergeSort_of_sorted
    (hsorted.imp (fun h => by simp only [chartLE, decide_eq_true_eq]; exact le_of_lt h))

/-- Witness for C9 at a concrete already-normalized two-point series. -/
theorem transformChartData_idempotent_witness :
    transformChartData exToTime
        ([⟨"2025-06-01", 1⟩, ⟨"2025-06-02", 2⟩].map pointToItem)
      = [⟨"2025-06-01", 1⟩, ⟨"2025-06-02", 2⟩] :=
  transformChartData_idempotent exToTime [⟨"2025-06-01", 1⟩, ⟨"2025-06-02", 2⟩]
    (by decide) (by decide) (by decide)

/-- Index of the first occurrence of `c` in a character list. -/
def idxOfChar (c : Char) : List Char → Option Nat
  | [] => none
  | x :: xs => if x == c then some 0 else (idxOfChar c xs).map (· + 1)

/-- Index of the last occurrence of `c` in a character list. -/
def lastIdxOfChar (c : Char) : List Char → Option Nat
  | [] => none
  | x :: xs =>
    match lastIdxOfChar c xs with
    | some j => some (j + 1)
    | none => if x == c then some 0 else none

/-- The opening and closing brace characters. -/
def lbrace : Char := Char.ofNat 123

def rbrace : Char := Char.ofNat 125

/-- The span matched by a greedy regex `openC [\s\S]* closeC`: from the
first `openC` through the last `closeC`, provided the close comes after
the open; `none` when the regex does not match. -/
def greedySpan (openC closeC : Char) (s : String) : Option String :=
  match idxOfChar openC s.toList, lastIdxOfChar closeC s.toList with
  | some i, some j =>
    if i < j then some (String.mk ((s.toList.drop i).take (j - i + 1))) else none
  | _, _ => none

/-- `text.match` with the greedy brace regex in `parseAnalysisResponse`
(`_index.tsx`, line 244). -/
def extractBraceSpan (s : String) : Option String := greedySpan lbrace rbrace s

/-- `responseText.match` with the greedy bracket regex in
`executeGeminiToolChoices` (`_index.tsx`, line 117). -/
def extractArraySpan (s : String) : Option String := greedySpan '[' ']' s

/-- Whether the last character is `c` (JS `endsWith` for a one-character
suffix; `false` on the empty string). -/
def endsWithChar (c : Char) (cs : List Char) : Bool :=
  match cs.getLast? with
  | some x => x == c
  | none => false

/-- Index of the last occurrence of the two-character sequence `a b`
(JS `lastIndexOf` of a two-character needle; `none` for JS `-1`). -/
def lastIdxOfPair (a b : Char) : List Char → Option Nat
  | [] => none
  | [_] => none
  | x :: y :: rest =>
    match lastIdxOfPair a b (y :: rest) with
    | some j => some (j + 1)
    | none => if x == a && y == b then some 0 else none

/-- The truncation-repair heuristic of `parseAnalysisResponse`
(`_index.tsx`, lines 251-258): when the extracted span does not end in a
closing brace, truncate back to the last quote-brace boundary (when one
exists at a positive index) and re-close the object. -/
def repairTruncated (jsonText : String) : String :=
  if endsWithChar rbrace jsonText.toList then jsonText
  else
    match lastIdxOfPair '"' rbrace jsonText.toList with
    | some k =>
      if 0 < k then String.mk (jsonText.toList.take (k + 2) ++ [rbrace])
      else jsonText
    | none => jsonText

/-- The fields of the object that `JSON.parse` yields and
`parseAnalysisResponse` reads; absent fields are `none`. -/
structure AnalysisJson where
  recommendation : Option String
  confidence : Option ℚ
  reasoning : Option String
  social_sentiment : Option String
  key_metrics : Option JsonV
  ai_analysis : Option JsonV
  chart_data : Option (List ChartItemIn)

/-- The `TradingAnalysis` object built by the `_index.tsx` variant of
`parseAnalysisResponse` (which also carries `chart_data` and a
`success` flag). -/
structure TradingAnalysis where
  symbol : String
  recommendation : String
  confidence : ℚ
  reasoning : String
  social_sentiment : String
  key_metrics : Option JsonV
  ai_analysis : JsonV
  timestamp : String
  chart_data : List ChartPoint
  success : Bool

/-- The catch-block fallback of `parseAnalysisResponse` (`_index.tsx`,
lines 279-296): neutral HOLD analysis with `success: true`.
`cryptoData` is the gathered data passed as third argument, used as
`cryptoData || \x7b\x7d` for the metrics. -/
def fallbackAnalysis (symbol : String) (cryptoData : JsonV) (now : String) :
    TradingAnalysis :=
  { symbol := symbol.toUpper
    recommendation := "HOLD"
    confidence := 50
    reasoning := "Analysis completed with limited data"
    social_sentiment := "neutral"
    key_metrics := some (if cryptoData.falsy then .obj [] else cryptoData)
    ai_analysis := .obj
      [("summary", .str "Unable to complete full AI analysis. Please try again."),
       ("pros", .arr []),
       ("cons", .arr [.str "Analysis parsing failed"]),
       ("key_factors", .arr [])]
    timestamp := now
    chart_data := []
    success := true }

/-- `parseAnalysisResponse` (`_index.tsx`, lines 230-298). The whole
body runs in a try/catch whose catch returns `fallbackAnalysis`, so
every throwing path (missing/empty text, no brace span, `JSON.parse`
failure) is a fallback return. `jsonParse` stands for `JSON.parse`
restricted to the fields read afterwards; `now` stands for
`new Date().toISOString()`. -/
def parseAnalysisResponse (jsonParse : String → Option AnalysisJson)
    (toTime : String → Int) (responseText : Option String)
    (symbol : String) (cryptoData : JsonV) (now : String) : TradingAnalysis :=
  match responseText with
  | none => fallbackAnalysis symbol cryptoData now
  | some text =>
    if text = "" then fallbackAnalysis symbol cryptoData now
    else
      match extractBraceSpan text with
      | none => fallbackAnalysis symbol cryptoData now
      | some span =>
        match jsonParse (repairTruncated span) with
        | none => fallbackAnalysis symbol cryptoData now
        | some analysis =>
          { symbol := symbol.toUpper
            recommendation := jsOrStr analysis.recommendation "HOLD"
            confidence := jsOrNum analysis.confidence 50
            reasoning := jsOrStr analysis.reasoning "Analysis completed"
            social_sentiment := jsOrStr analysis.social_sentiment "neutral"
            key_metrics := analysis.key_metrics
            ai_analysis := jsOrJson analysis.ai_analysis
              (jsOrJson (analysis.reasoning.map JsonV.str) (.str "AI analysis completed"))
            timestamp := now
            chart_data := transformChartData toTime (analysis.chart_data.getD [])
            success := true }

/-- Helper: `parseAnalysisResponse` marks every result successful. -/
theorem parseAnalysisResponse_success (jsonParse : String → Option AnalysisJson)
    (toTime : String → Int) (responseText : Option String)
    (symbol : String) (cryptoData : JsonV) (now : String) :
    (parseAnalysisResponse jsonParse toTime responseText symbol cryptoData now).success
      = true := by
  unfold parseAnalysisResponse
  repeat' split
  all_goals rfl

/-- Helper: evaluation of `parseAnalysisResponse` on a successfully
parsed span. -/
theorem parseAnalysisResponse_parsed (jsonParse : String → Option AnalysisJson)
    (toTime : String → Int) (text span : String) (analysis : AnalysisJson)
    (symbol : String) (cryptoData : JsonV) (now : String)
    (htext : text ≠ "")
    (hspan : extractBraceSpan text = some span)
    (hparse : jsonParse (repairTruncated span) = some analysis) :
    parseAnalysisResponse jsonParse toTime (some text) symbol cryptoData now
      = { symbol := symbol.toUpper
          recommendation := jsOrStr analysis.recommendation "HOLD"
          confidence := jsOrNum analysis.confidence 50
          reasoning := jsOrStr analysis.reasoning "Analysis completed"
          social_sentiment := jsOrStr analysis.social_sentiment "neutral"
          key_metrics := analysis.key_metrics
          ai_analysis := jsOrJson analysis.ai_analysis
            (jsOrJson (analysis.reasoning.map JsonV.str) (.str "AI analysis completed"))
          timestamp := now
          chart_data := transformChartData toTime (analysis.chart_data.getD [])
          success := true } := by
  unfold parseAnalysisResponse
  simp only [if_neg htext, hspan, hparse]

/-- C3: `parseAnalysisResponse` never throws: whenever the model text is
missing or empty, contains no brace-delimited span, or still fails to
parse after the truncation-repair heuristic, it returns the fallback
`TradingAnalysis` with recommendation HOLD, confidence 50, neutral
social sentiment, and `success = true`. -/
theorem parseAnalysisResponse_fallback
    (jsonParse : String → Option AnalysisJson) (toTime : String → Int)
    (responseText : Option String) (symbol : String) (cryptoData : JsonV) (now : String)
    (h : responseText = none ∨ responseText = some ""
      ∨ (∃ text, responseText = some text ∧ extractBraceSpan text = none)
      ∨ (∃ text span, responseText = some text ∧ extractBraceSpan text = some span
          ∧ jsonParse (repairTruncated span) = none)) :
    parseAnalysisResponse jsonParse toTime responseText symbol cryptoData now
        = fallbackAnalysis symbol cryptoData now
    ∧ (parseAnalysisResponse jsonParse toTime responseText symbol cryptoData now).recommendation
        = "HOLD"
    ∧ (parseAnalysisResponse jsonParse toTime responseText symbol cryptoData now).confidence
        = 50
    ∧ (parseAnalysisResponse jsonParse toTime responseText symbol cryptoData now).social_sentiment
        = "neutral"
    ∧ (parseAnalysisResponse jsonParse toTime responseText symbol cryptoData now).success
        = true := by
  have hmain : parseAnalysisResponse jsonParse toTime responseText symbol cryptoData now
      = fallbackAnalysis symbol cryptoData now := by
    rcases h with h | h | ⟨text, htext, hspan⟩ | ⟨text, span, htext, hspan, hparse⟩
    · subst h
      rfl
    · subst h
      rfl
    · subst htext
      by_cases he : text = ""
      · simp [parseAnalysisResponse, he]
      · simp [parseAnalysisResponse, he, hspan]
    · subst htext
      by_cases he : text = ""
      · simp [parseAnalysisResponse, he]
      · simp [parseAnalysisResponse, he, hspan, hparse]
  exact ⟨hmain, by simp [hmain, fallbackAnalysis], by simp [hmain, fallbackAnalysis],
    by simp [hmain, fallbackAnalysis], by simp [hmain, fallbackAnalysis]⟩

/-- Witness for C3: a model response with no brace span at all. -/
theorem parseAnalysisResponse_fallback_witness :
    parseAnalysisResponse (fun _ => none) exToTime (some "no json here") "BTC" (.obj []) "t"
        = fallbackAnalysis "BTC" (.obj []) "t"
    ∧ (parseAnalysisResponse (fun _ => none) exToTime (some "no json here") "BTC" (.obj []) "t").recommendation
        = "HOLD"
    ∧ (parseAnalysisResponse (fun _ => none) exToTime (some "no json here") "BTC" (.obj []) "t").confidence
        = 50
    ∧ (parseAnalysisResponse (fun _ => none) exToTime (some "no json here") "BTC" (.obj []) "t").social_sentiment
        = "neutral"
    ∧ (parseAnalysisResponse (fun _ => none) exToTime (some "no json here") "BTC" (.obj []) "t").success
        = true :=
  parseAnalysisResponse_fallback (fun _ => none) exToTime (some "no json here") "BTC"
    (.obj []) "t"
    (Or.inr (Or.inr (Or.inl ⟨"no json here", rfl, by decide⟩)))

/-- `JSON.parse` on the concrete analysis text used in the C4
counterexample: the object whose only field is `confidence: 150`. -/
def parseConf150 : String → Option AnalysisJson :=
  fun s =>
    if s = "\x7b\"confidence\": 150\x7d" then
      some { recommendation := none, confidence := some 150, reasoning := none,
             social_sentiment := none, key_metrics := none, ai_analysis := none,
             chart_data := none }
    else none

/-- C4 counterexample: a model response with `confidence: 150` yields a
`TradingAnalysis` whose confidence is 150 — outside [0, 100], so the
claimed clamping does not happen. -/
theorem parseAnalysisResponse_no_clamp_counterexample :
    (parseAnalysisResponse parseConf150 exToTime
        (some "\x7b\"confidence\": 150\x7d") "BTC" (.obj []) "t").confidence = 150
    ∧ ¬ ((parseAnalysisResponse parseConf150 exToTime
        (some "\x7b\"confidence\": 150\x7d") "BTC" (.obj []) "t").confidence ≤ 100) := by
  have h : (parseAnalysisResponse parseConf150 exToTime
      (some "\x7b\"confidence\": 150\x7d") "BTC" (.obj []) "t").confidence = 150 := by
    rfl
  refine ⟨h, ?_⟩
  rw [h]
  norm_num

/-- The parsed analysis used in the C4 amended witness: the object whose
only field is `confidence: -5`. -/
def anaNeg5 : AnalysisJson :=
  { recommendation := none, confidence := some (-5), reasoning := none,
    social_sentiment := none, key_metrics := none, ai_analysis := none,
    chart_data := none }

/-- `JSON.parse` on the concrete text used in the C4 amended witness. -/
def parseConfNeg5 : String → Option AnalysisJson :=
  fun s => if s = "\x7b\"confidence\": -5\x7d" then some anaNeg5 else none

/-- C4 amended: `parseAnalysisResponse` performs no clamping of the
confidence field: a truthy parsed confidence (any non-zero number, such
as 150 or -5) is passed through unchanged, and an absent or zero one
defaults to 50 — so the result need not lie in [0, 100]. -/
theorem parseAnalysisResponse_confidence_passthrough
    (jsonParse : String → Option AnalysisJson) (toTime : String → Int)
    (text span : String) (analysis : AnalysisJson)
    (symbol : String) (cryptoData : JsonV) (now : String)
    (htext : text ≠ "")
    (hspan : extractBraceSpan text = some span)
    (hparse : jsonParse (repairTruncated span) = some analysis) :
    (∀ c, analysis.confidence = some c → c ≠ 0 →
      (parseAnalysisResponse jsonParse toTime (some text) symbol cryptoData now).confidence
        = c)
    ∧ ((analysis.confidence = none ∨ analysis.confidence = some 0) →
      (parseAnalysisResponse jsonParse toTime (some text) symbol cryptoData now).confidence
        = 50) := by
  rw [parseAnalysisResponse_parsed jsonParse toTime text span analysis symbol
    cryptoData now htext hspan hparse]
  constructor
  · intro c hc hne
    simp [jsOrNum, hc, hne]
  · intro hc
    rcases hc with hc | hc <;> simp [jsOrNum, hc]

/-- Witness for C4 amended: a model response with `confidence: -5`
passes -5 through unchanged (and would default to 50 were it absent). -/
theorem parseAnalysisResponse_confidence_passthrough_witness :
    (∀ c, anaNeg5.confidence = some c → c ≠ 0 →
      (parseAnalysisResponse parseConfNeg5 exToTime
        (some "\x7b\"confidence\": -5\x7d") "BTC" (.obj []) "t").confidence = c)
    ∧ ((anaNeg5.confidence = none ∨ anaNeg5.confidence = some 0) →
      (parseAnalysisResponse parseConfNeg5 exToTime
        (some "\x7b\"confidence\": -5\x7d") "BTC" (.obj []) "t").confidence = 50) :=
  parseAnalysisResponse_confidence_passthrough parseConfNeg5 exToTime
    "\x7b\"confidence\": -5\x7d" "\x7b\"confidence\": -5\x7d" anaNeg5 "BTC" (.obj []) "t"
    (by decide) rfl rfl

/-- One element of the tool-call plan parsed from the model's
orchestration response. -/
structure ToolCall where
  tool : String
  args : JsonV
  reason : String

/-- One element of `GatheredData.toolResults`: the originating tool
name, args and reason, plus either a `result` (success) or an `error`
message (failure). -/
structure ToolResultEntry where
  tool : String
  args : JsonV
  reason : String
  result : Option JsonV
  error : Option String

/-- The aggregate built by `executeGeminiToolChoices`. -/
structure GatheredData where
  symbol : String
  toolResults : List ToolResultEntry

/-- The per-call body of the `toolCalls.map` inside
`executeGeminiToolChoices` (`_index.tsx`, lines 130-149): await the
tool call; a throw is caught and recorded as an `error` entry that
keeps the tool name, args and reason. -/
def runToolCall (callTool : String → JsonV → Except String JsonV) (tc : ToolCall) :
    ToolResultEntry :=
  match callTool tc.tool tc.args with
  | .ok r => { tool := tc.tool, args := tc.args, reason := tc.reason,
               result := some r, error := none }
  | .error e => { tool := tc.tool, args := tc.args, reason := tc.reason,
                  result := none, error := some e }

/-- In `_index.tsx`, `executeGeminiToolChoices` is a plain module-level
function, so `this` is undefined and each
`this.executeFallbackToolCalls(symbol)` fallback path throws a
TypeError, which rejects the returned promise. -/
def thisUndefinedTypeError : String :=
  "TypeError: cannot read executeFallbackToolCalls of undefined"

/-- `executeGeminiToolChoices` (`_index.tsx`, lines 103-157): read the
response text, extract the greedy bracketed span, `JSON.parse` it
(`parseToolCalls` stands for `JSON.parse` restricted to tool-call
arrays), then execute every planned call concurrently with
`Promise.all`, which preserves input order in `toolResults`. -/
def executeGeminiToolChoices (parseToolCalls : String → Option (List ToolCall))
    (callTool : String → JsonV → Except String JsonV)
    (symbol : String) (responseText : Option String) :
    Except String GatheredData :=
  match responseText with
  | none => .error thisUndefinedTypeError
  | some text =>
    match extractArraySpan text with
    | none => .error thisUndefinedTypeError
    | some span =>
      match parseToolCalls span with
      | none => .error thisUndefinedTypeError
      | some toolCalls =>
        .ok { symbol := symbol.toUpper
              toolResults := toolCalls.map (runToolCall callTool) }

/-- C6: when one of several planned tool calls fails,
`executeGeminiToolChoices` records the failure as an `error` entry that
keeps the tool name, args and reason, still executes all the remaining
calls (one entry per planned call, successes kept as `result` entries),
and the analysis over the gathered data proceeds with `success = true`. -/
theorem executeGeminiToolChoices_partial_failure
    (parseToolCalls : String → Option (List ToolCall))
    (callTool : String → JsonV → Except String JsonV)
    (symbol text span : String) (tcs : List ToolCall) (j : Nat) (tc : ToolCall) (m : String)
    (hspan : extractArraySpan text = some span)
    (hparse : parseToolCalls span = some tcs)
    (hj : tcs[j]? = some tc)
    (hfail : callTool tc.tool tc.args = .error m) :
    ∃ g, executeGeminiToolChoices parseToolCalls callTool symbol (some text) = .ok g
      ∧ g.symbol = symbol.toUpper
      ∧ g.toolResults.length = tcs.length
      ∧ g.toolResults[j]? = some { tool := tc.tool, args := tc.args, reason := tc.reason,
                                   result := none, error := some m }
      ∧ (∀ (k : Nat) (tk : ToolCall) (r : JsonV), tcs[k]? = some tk →
          callTool tk.tool tk.args = .ok r →
          g.toolResults[k]? = some { tool := tk.tool, args := tk.args, reason := tk.reason,
                                     result := some r, error := none })
      ∧ (∀ jsonParse toTime rt cryptoData now,
          (parseAnalysisResponse jsonParse toTime rt symbol cryptoData now).success = true) := by
  refine ⟨{ symbol := symbol.toUpper, toolResults := tcs.map (runToolCall callTool) },
    ?_, rfl, ?_, ?_, ?_, ?_⟩
  · simp [executeGeminiToolChoices, hspan, hparse]
  · simp
  · simp [List.getElem?_map, hj, runToolCall, hfail]
  · intro k tk r hk hok
    simp [List.getElem?_map, hk, runToolCall, hok]
  · intro jsonParse toTime rt cryptoData now
    exact parseAnalysisResponse_success jsonParse toTime rt symbol cryptoData now

/-- The two planned tool calls of the C6 witness. -/
def exToolA : ToolCall :=
  { tool := "Topic", args := .obj [("topic", .str "btc")], reason := "social data" }

def exToolB : ToolCall :=
  { tool := "Time Series", args := .obj [("symbol", .str "btc")], reason := "price history" }

/-- `JSON.parse` on the concrete plan span of the C6 witness. -/
def exParsePlan : String → Option (List ToolCall) :=
  fun s => if s = "[plan]" then some [exToolA, exToolB] else none

/-- The tool executor of the C6 witness: `Topic` succeeds, everything
else throws a provider error. -/
def exCallTool : String → JsonV → Except String JsonV :=
  fun name _ => if name = "Topic" then .ok (.str "data") else .error "MCP Error: provider failure"

/-- Witness for C6: of two planned calls the second fails; both entries
are recorded and the analysis still reports success. -/
theorem executeGeminiToolChoices_partial_failure_witness :
    ∃ g, executeGeminiToolChoices exParsePlan exCallTool "btc" (some "x[plan]y") = .ok g
      ∧ g.symbol = "btc".toUpper
      ∧ g.toolResults.length = ([exToolA, exToolB] : List ToolCall).length
      ∧ g.toolResults[1]? = some { tool := exToolB.tool, args := exToolB.args,
                                   reason := exToolB.reason, result := none,
                                   error := some "MCP Error: provider failure" }
      ∧ (∀ (k : Nat) (tk : ToolCall) (r : JsonV), ([exToolA, exToolB] : List ToolCall)[k]? = some tk →
          exCallTool tk.tool tk.args = .ok r →
          g.toolResults[k]? = some { tool := tk.tool, args := tk.args, reason := tk.reason,
                                     result := some r, error := none })
      ∧ (∀ jsonParse toTime rt cryptoData now,
          (parseAnalysisResponse jsonParse toTime rt "btc" cryptoData now).success = true) :=
  executeGeminiToolChoices_partial_failure exParsePlan exCallTool "btc" "x[plan]y" "[plan]"
    [exToolA, exToolB] 1 exToolB "MCP Error: provider failure" rfl rfl rfl rfl

/-- The JSON body of a response from the `action` handler of
`api.analyze.tsx`; keys absent from the returned object are `none`. -/
structure ActionBody where
  success : Option Bool
  error : Option String
  analysis : Option JsonV
  timestamp : Option String

/-- A `json(..., \x7b status \x7d)` response from the handler. -/
structure ActionResponse where
  status : Nat
  body : ActionBody

/-- The `action` handler (`api.analyze.tsx`, lines 14-61). `symbol` is
`formData.get('symbol')` (`none` when absent), the keys come from the
environment, `analyze` stands for
`aiService.analyzeCryptocurrency(symbol)` (whose rejection is caught by
the outer catch with the error's message), and `now` stands for
`new Date().toISOString()`. Note that the missing-symbol and
missing-key responses carry only an `error` key — no `success` key. -/
def action (symbol lunarcrushKey geminiKey : Option String)
    (analyze : String → Except String JsonV) (now : String) : ActionResponse :=
  if symbol.getD "" = "" then
    { status := 400,
      body := { success := none, error := some "Symbol is required",
                analysis := none, timestamp := none } }
  else if lunarcrushKey.getD "" = "" ∨ geminiKey.getD "" = "" then
    { status := 500,
      body := { success := none, error := some "API keys not configured",
                analysis := none, timestamp := none } }
  else
    match analyze (symbol.getD "") with
    | .ok a =>
      { status := 200,
        body := { success := some true, error := none,
                  analysis := some a, timestamp := some now } }
    | .error e =>
      { status := 500,
        body := { success := some false, error := some e,
                  analysis := none, timestamp := none } }

/-- A stub analysis that always succeeds (never reached in the
counterexample, which fails earlier on the missing key). -/
def anaOkStub : String → Except String JsonV := fun _ => .ok (.obj [])

/-- C7 counterexample: with the LunarCrush key missing, the response
does carry a human-readable error, but its body has no `success` key at
all — in particular `success` is not `false` as claimed. -/
theorem action_missing_key_counterexample :
    (action (some "BTC") none (some "gkey") anaOkStub "t").body.error
        = some "API keys not configured"
    ∧ (action (some "BTC") none (some "gkey") anaOkStub "t").status = 500
    ∧ (action (some "BTC") none (some "gkey") anaOkStub "t").body.success = none
    ∧ ¬ ((action (some "BTC") none (some "gkey") anaOkStub "t").body.success
        = some false) :=
  ⟨rfl, rfl, rfl, fun h => Option.noConfusion h⟩

/-- C7 amended: when the analysis itself fails (network/provider
connection failure, thrown inside `analyzeCryptocurrency`), the
response is a 500 with `success: false` and the error's message; when
an API key is missing, the response is a 500 whose body carries only
the human-readable message `API keys not configured` and no `success`
key. -/
theorem action_failure_semantics
    (symbol lunarcrushKey geminiKey : Option String)
    (analyze : String → Except String JsonV) (now : String)
    (hsym : symbol.getD "" ≠ "") :
    ((lunarcrushKey.getD "" = "" ∨ geminiKey.getD "" = "") →
      action symbol lunarcrushKey geminiKey analyze now
        = { status := 500,
            body := { success := none, error := some "API keys not configured",
                      analysis := none, timestamp := none } })
    ∧ (∀ e : String, lunarcrushKey.getD "" ≠ "" → geminiKey.getD "" ≠ "" →
        analyze (symbol.getD "") = .error e →
        action symbol lunarcrushKey geminiKey analyze now
          = { status := 500,
              body := { success := some false, error := some e,
                        analysis := none, timestamp := none } }) := by
  constructor
  · intro hkeys
    simp [action, hsym, hkeys]
  · intro e hk1 hk2 herr
    simp [action, hsym, hk1, hk2, herr]

/-- The failing analysis of the C7 witness: the provider connection
refused. -/
def anaErrStub : String → Except String JsonV := fun _ => .error "fetch failed"

/-- Witness for C7 amended at concrete inputs (both keys present, the
analysis rejects). -/
theorem action_failure_semantics_witness :
    ((some "lk" : Option String).getD "" = "" ∨ (some "gk" : Option String).getD "" = "" →
      action (some "BTC") (some "lk") (some "gk") anaErrStub "t"
        = { status := 500,
            body := { success := none, error := some "API keys not configured",
                      analysis := none, timestamp := none } })
    ∧ (∀ e : String, (some "lk" : Option String).getD "" ≠ "" →
        (some "gk" : Option String).getD "" ≠ "" →
        anaErrStub ((some "BTC" : Option String).getD "") = .error e →
        action (some "BTC") (some "lk") (some "gk") anaErrStub "t"
          = { status := 500,
              body := { success := some false, error := some e,
                        analysis := none, timestamp := none } }) :=
  action_failure_semantics (some "BTC") (some "lk") (some "gk") anaErrStub "t" (by decide)

/-- The `CryptoData` record of `lunarcrush-mcp.ts` (lines 20-31); the
optional numeric fields start out absent. -/
structure CryptoData where
  symbol : String
  name : String
  price : Option ℚ
  volume_24h : Option ℚ
  galaxy_score : Option ℚ
  alt_rank : Option ℚ
  social_mentions : Option ℚ
  social_engagements : Option ℚ
  social_dominance : Option ℚ
  market_cap : Option ℚ
deriving DecidableEq

/-- Whether `pat` is a prefix of `cs`. -/
def startsWithChars : List Char → List Char → Bool
  | [], _ => true
  | _ :: _, [] => false
  | p :: ps, c :: cs => p == c && startsWithChars ps cs

/-- JS `String.prototype.includes`: whether `pat` occurs in `cs`. -/
def containsSub (pat : List Char) : List Char → Bool
  | [] => pat.isEmpty
  | c :: cs => startsWithChars pat (c :: cs) || containsSub pat cs

/-- A digit or comma, the character class of the price regex group. -/
def isDigitComma (c : Char) : Bool := c.isDigit || c == ','

/-- Group 1 of the first match of the price regex
(`lunarcrush-mcp.ts`, line 250): skip to the first digit-or-comma
(an optional dollar sign before it changes nothing in the group), take
the greedy digit-or-comma run, then an optional decimal point with a
greedy digit run. -/
def priceToken : List Char → Option (List Char)
  | [] => none
  | c :: cs =>
    if isDigitComma c then
      some ((c :: cs).takeWhile isDigitComma
        ++ (match (c :: cs).dropWhile isDigitComma with
            | '.' :: rest => '.' :: rest.takeWhile Char.isDigit
            | _ => []))
    else priceToken cs

/-- JS `.replace(',', '')`: remove only the first comma. -/
def removeFirstComma : List Char → List Char
  | [] => []
  | c :: cs => if c == ',' then cs else c :: removeFirstComma cs

/-- The numeric value of a digit run. -/
def digitsToNat (cs : List Char) : Nat :=
  cs.foldl (fun a c => a * 10 + (c.toNat - 48)) 0

/-- JS `parseFloat` restricted to the `[\d,.]` tokens the price match
produces: parse the leading `digits [ . digits ]` prefix and stop at
the first other character; `none` models NaN (no leading digit and no
leading `.digit`). -/
def jsParseFloat (cs : List Char) : Option ℚ :=
  let intPart := cs.takeWhile Char.isDigit
  match cs.dropWhile Char.isDigit with
  | '.' :: rest =>
    let fracPart := rest.takeWhile Char.isDigit
    if intPart.isEmpty && fracPart.isEmpty then none
    else some ((digitsToNat intPart : ℚ)
      + (digitsToNat fracPart : ℚ) / ((10 : ℚ) ^ fracPart.length))
  | _ => if intPart.isEmpty then none else some (digitsToNat intPart)

/-- The first match of the bare digit-run regex used for the galaxy
score and rank (`lunarcrush-mcp.ts`, lines 256 and 262), fed to
`parseInt`. -/
def firstDigitRun : List Char → Option (List Char)
  | [] => none
  | c :: cs =>
    if c.isDigit then some ((c :: cs).takeWhile Char.isDigit)
    else firstDigitRun cs

/-- JS `data.split('\n')` at the character level. -/
def splitLines : List Char → List (List Char)
  | [] => [[]]
  | c :: cs =>
    let rest := splitLines cs
    if c == '\n' then [] :: rest
    else
      match rest with
      | [] => [[c]]
      | l :: ls => (c :: l) :: ls

/-- The per-line body of the extraction loop in `getCryptocurrencyData`
(`lunarcrush-mcp.ts`, lines 248-267): three independent keyword checks,
each overwriting its field with the line's first matched number. A
price token whose `parseFloat` is NaN is recorded as absent (NaN is
falsy exactly like an absent price at the only place it is read). -/
def parseCryptoLine (cd : CryptoData) (cs : List Char) : CryptoData :=
  let cd :=
    if containsSub "Price:".toList cs || containsSub "price".toList cs then
      match priceToken cs with
      | some tok => { cd with price := jsParseFloat (removeFirstComma tok) }
      | none => cd
    else cd
  let cd :=
    if containsSub "Galaxy Score:".toList cs || containsSub "galaxy".toList cs then
      match firstDigitRun cs with
      | some ds => { cd with galaxy_score := some (digitsToNat ds : ℚ) }
      | none => cd
    else cd
  if containsSub "AltRank:".toList cs || containsSub "rank".toList cs then
    match firstDigitRun cs with
    | some ds => { cd with alt_rank := some (digitsToNat ds : ℚ) }
    | none => cd
  else cd

/-- The markdown-extraction phase of `getCryptocurrencyData`
(`lunarcrush-mcp.ts`, lines 241-267): start from
`\x7bsymbol: symbol.toUpperCase(), name: symbol\x7d` and scan every
line. -/
def parseCryptoFromMarkdown (symbol : String) (data : String) : CryptoData :=
  (splitLines data.toList).foldl parseCryptoLine
    { symbol := symbol.toUpper, name := symbol,
      price := none, volume_24h := none, galaxy_score := none, alt_rank := none,
      social_mentions := none, social_engagements := none,
      social_dominance := none, market_cap := none }

/-- JS `!cryptoData.price`: an absent (or NaN, see `parseCryptoLine`)
or zero price is falsy. -/
def jsFalsyNumOpt (o : Option ℚ) : Bool :=
  match o with
  | none => true
  | some q => q == 0

/-- The demo-data branch of `getCryptocurrencyData`
(`lunarcrush-mcp.ts`, lines 269-280): when no price was parsed, all
eight numeric fields are drawn from `Math.random()`. `rand k` is the
value of the k-th `Math.random()` call in source order. -/
def demoFill (cd : CryptoData) (rand : Nat → ℚ) : CryptoData :=
  if jsFalsyNumOpt cd.price then
    { cd with
      price := some (rand 0 * 50000 + 30000)
      volume_24h := some (rand 1 * 1000000000 + 500000000)
      galaxy_score := some ((Int.floor (rand 2 * 40) : ℚ) + 60)
      alt_rank := some ((Int.floor (rand 3 * 10) : ℚ) + 1)
      social_mentions := some ((Int.floor (rand 4 * 1000) : ℚ) + 100)
      social_engagements := some ((Int.floor (rand 5 * 10000) : ℚ) + 1000)
      social_dominance := some (rand 6 * 20 + 5)
      market_cap := some (rand 7 * 500000000000 + 500000000000) }
  else cd

/-- `getCryptocurrencyData` (`lunarcrush-mcp.ts`, lines 223-291),
given the markdown text of the tool result (`result.content[0].text`;
`none` when `result.content`/`result.content[0]` is missing, which
throws `No data returned from MCP`). -/
def getCryptocurrencyData (symbol : String) (content : Option String)
    (rand : Nat → ℚ) : Except String CryptoData :=
  match content with
  | none => .error "No data returned from MCP"
  | some data => .ok (demoFill (parseCryptoFromMarkdown symbol data) rand)

/-- C10: `getCryptocurrencyData` is not deterministic: on any provider
response whose markdown yields no parseable price, the returned data is
drawn from the random-number stream, so two runs on the identical
response (with different `Math.random()` outcomes) return different
values — in particular different prices. -/
theorem getCryptocurrencyData_nondeterministic
    (symbol data : String) (rand rand' : Nat → ℚ)
    (hprice : jsFalsyNumOpt (parseCryptoFromMarkdown symbol data).price = true)
    (hr : rand 0 ≠ rand' 0) :
    (∃ cd cd', getCryptocurrencyData symbol (some data) rand = .ok cd
      ∧ getCryptocurrencyData symbol (some data) rand' = .ok cd'
      ∧ cd.price = some (rand 0 * 50000 + 30000)
      ∧ cd.volume_24h = some (rand 1 * 1000000000 + 500000000)
      ∧ cd.price ≠ cd'.price)
    ∧ getCryptocurrencyData symbol (some data) rand
        ≠ getCryptocurrencyData symbol (some data) rand' := by
  have hd : ∀ r : Nat → ℚ,
      (demoFill (parseCryptoFromMarkdown symbol data) r).price
        = some (r 0 * 50000 + 30000) := by
    intro r
    simp [demoFill, hprice]
  have hdv : ∀ r : Nat → ℚ,
      (demoFill (parseCryptoFromMarkdown symbol data) r).volume_24h
        = some (r 1 * 1000000000 + 500000000) := by
    intro r
    simp [demoFill, hprice]
  have hne : (demoFill (parseCryptoFromMarkdown symbol data) rand).price
      ≠ (demoFill (parseCryptoFromMarkdown symbol data) rand').price := by
    rw [hd rand, hd rand']
    intro h
    apply hr
    have h2 := Option.some.inj h
    linarith
  refine ⟨⟨demoFill (parseCryptoFromMarkdown symbol data) rand,
    demoFill (parseCryptoFromMarkdown symbol data) rand',
    rfl, rfl, hd rand, hdv rand, hne⟩, ?_⟩
  intro heq
  exact hne (congrArg CryptoData.price (Except.ok.inj heq))

/-- The two random streams of the C10 witness. -/
def randZero : Nat → ℚ := fun _ => 0

def randHalf : Nat → ℚ := fun _ => 1 / 2

/-- Witness for C10: markdown `hello` has no parseable price, and the
two random streams produce different crypto data. -/
theorem getCryptocurrencyData_nondeterministic_witness :
    (∃ cd cd', getCryptocurrencyData "BTC" (some "hello") randZero = .ok cd
      ∧ getCryptocurrencyData "BTC" (some "hello") randHalf = .ok cd'
      ∧ cd.price = some (randZero 0 * 50000 + 30000)
      ∧ cd.volume_24h = some (randZero 1 * 1000000000 + 500000000)
      ∧ cd.price ≠ cd'.price)
    ∧ getCryptocurrencyData "BTC" (some "hello") randZero
        ≠ getCryptocurrencyData "BTC" (some "hello") randHalf :=
  getCryptocurrencyData_nondeterministic "BTC" "hello" randZero randHalf
    (by decide) (by norm_num [randZero, randHalf])
